import Mathlib

/-!
Shallow embedding of the `POST /generate-image` pipeline of
`ai.bermudi.dev-api-router` (`src/index.js`): prompt validation, the
per-IP fixed-window rate limiter placed in front of the handler, the
defensive parsing of the moderation response, the moderation verdict
branch, and the relay of the image-generation response.
-/

set_option autoImplicit false

namespace ApiRouter

/-- The JavaScript values the handler can meet in a parsed JSON body:
a string, a number, a boolean, `null`, or some other object value
(array/object — truthy, not a string). -/
inductive JsVal where
  | vstr (s : String)
  | vnum (n : Int)
  | vbool (b : Bool)
  | vnull
  | vobj
  deriving DecidableEq, Repr

/-- JavaScript truthiness of a `JsVal` (a missing field, i.e. `undefined`,
is modelled by `Option.none` at the use sites and is falsy). -/
def jsTruthy : JsVal → Bool
  | .vstr s => s ≠ ""
  | .vnum n => n ≠ 0
  | .vbool b => b
  | .vnull => false
  | .vobj => true

/-- Whether `typeof v === "string"`. -/
def jsIsString : JsVal → Bool
  | .vstr _ => true
  | _ => false

/-- The characters `String.prototype.trim` removes (the ASCII ones;
the strings this pipeline compares against are ASCII). -/
def jsWhitespace (c : Char) : Bool :=
  c = ' ' || c = '\t' || c = '\n' || c = '\r' || c = '\x0b' || c = '\x0c'

/-- Drop the leading whitespace of a character list. -/
def dropLeadingWs : List Char → List Char
  | [] => []
  | c :: cs => if jsWhitespace c then dropLeadingWs cs else c :: cs

/-- `s.trim()`: surrounding whitespace removed from both ends. -/
def jsTrim (s : String) : String :=
  ⟨(dropLeadingWs (dropLeadingWs s.data.reverse).reverse)⟩

/-- `s.toLowerCase()` on the ASCII range. -/
def jsToLower (s : String) : String :=
  ⟨s.data.map Char.toLower⟩

/-- `v.trim().toLowerCase()`: defined only on strings; on any other value
the method access raises a `TypeError` (modelled as `none`). -/
def jsTrimLower : JsVal → Option String
  | .vstr s => some (jsToLower (jsTrim s))
  | _ => none

/-- The request body as the handler reads it: the value of the `prompt`
field, or `none` when the field is absent (`undefined`). -/
structure ReqBody where
  prompt : Option JsVal
  deriving DecidableEq, Repr

/-- `src/index.js` line 40: `!prompt || typeof prompt !== "string"` —
the prompt is accepted exactly when it is a truthy string
(missing, falsy including the empty string, or non-string are rejected). -/
def validPrompt (p : Option JsVal) : Bool :=
  match p with
  | none => false
  | some v => jsTruthy v && jsIsString v

/-- `message.content` of one choice of the moderation response;
`none` models a missing `content` field. -/
structure ModMessage where
  content : Option JsVal
  deriving DecidableEq, Repr

/-- One element of the `choices` array of the moderation response;
`none` models a missing `message` field. -/
structure ModChoice where
  message : Option ModMessage
  deriving DecidableEq, Repr

/-- The moderation response body (`modResponse`): an optional `result`
field and an optional `choices` array. A `choices` field that is present
but not an array takes the same branch as an absent one in the source
(`modResponse.choices && Array.isArray(modResponse.choices)`), so both
are modelled by `none`. -/
structure ModResponse where
  result : Option JsVal
  choices : Option (List ModChoice)
  deriving DecidableEq, Repr

/-- How the moderation try-block can fail before producing an answer. -/
inductive ModError where
  /-- the explicit `throw new Error("Unexpected format from moderation response.")` -/
  | formatError
  /-- a `TypeError` from a property access or method call on an unsuitable value
  (`choices[0]` of an empty array, missing `message`/`content`, non-string content) -/
  | typeError
  deriving DecidableEq, Repr

/-- `src/index.js` lines 79-80: the `choices` branch of the moderation
answer extraction, `modResponse.choices[0].message.content.trim().toLowerCase()`;
the final `else` branch (line 82) throws the format error. -/
def parseChoicesAnswer : Option (List ModChoice) → Except ModError String
  | some [] => .error .typeError
  | some (c :: _) =>
    match c.message with
    | none => .error .typeError
    | some m =>
      match m.content with
      | none => .error .typeError
      | some v =>
        match jsTrimLower v with
        | some s => .ok s
        | none => .error .typeError
  | none => .error .formatError

/-- `src/index.js` lines 76-83: extraction of `moderationAnswer`. A truthy
`result` field wins and is trimmed and lower-cased; otherwise the
`choices` array is consulted; with neither, the format error is thrown. -/
def parseModerationAnswer (r : ModResponse) : Except ModError String :=
  match r.result with
  | some v =>
    if jsTruthy v then
      match jsTrimLower v with
      | some s => .ok s
      | none => .error .typeError
    else parseChoicesAnswer r.choices
  | none => parseChoicesAnswer r.choices

/-- One image item of the generation response (`data.data[i]`). -/
structure GenItem where
  url : String
  deriving DecidableEq, Repr

/-- The parsed JSON body of the generation response (`data`): an optional
`error` field and an optional `data` array. -/
structure GenBody where
  error : Option JsVal
  data : Option (List GenItem)
  deriving DecidableEq, Repr

/-- The generation fetch response: HTTP status plus parsed body. -/
structure GenResponse where
  status : Nat
  body : GenBody
  deriving DecidableEq, Repr

/-- `response.ok` of the Fetch API: status in the range 200-299. -/
def fetchOk (status : Nat) : Bool :=
  decide (200 ≤ status) && decide (status < 300)

/-- `src/index.js` line 121: `data.error || "Error generating image."`. -/
def genErrorMessage (b : GenBody) : JsVal :=
  match b.error with
  | some v => if jsTruthy v then v else .vstr "Error generating image."
  | none => .vstr "Error generating image."

/-- Outcome of one awaited remote call: the transport throws, or a
response body is delivered. -/
inductive RemoteOutcome (α : Type) where
  | transportError
  | response (r : α)
  deriving DecidableEq, Repr

/-- Response bodies the route can emit: `res.json({ url })`,
`res.json({ error })`, or the rate limiter's plain message. -/
inductive RespBody where
  | urlBody (u : String)
  | errorBody (e : JsVal)
  | textBody (t : String)
  deriving DecidableEq, Repr

/-- An HTTP response: status code and body. -/
structure HttpResponse where
  status : Nat
  body : RespBody
  deriving DecidableEq, Repr

def invalidPromptMsg : String := "Missing or invalid 'prompt' in request body."

def moderationFailMsg : String := "Content moderation failed. Please try again later."

def internalErrorMsg : String := "Internal Server Error"

def rateLimitMsg : String := "Rate limit exceeded. Only one image per second allowed."

/-- What one run of the route produced: the HTTP response, whether the
moderation step was entered, whether the generation fetch was issued, and
the `Authorization` header value of that fetch when it was issued. -/
structure HandlerResult where
  response : HttpResponse
  moderationCalled : Bool
  generationCalled : Bool
  genAuthHeader : Option String
  deriving DecidableEq, Repr

/-- `src/index.js` line 104: `` `Bearer ${process.env.TOGETHER_API_KEY}` `` —
an unset variable interpolates as the literal string `undefined`. -/
def bearerHeader (apiKey : Option String) : String :=
  "Bearer " ++ (match apiKey with | some k => k | none => "undefined")

/-- `src/index.js` lines 98-131: the generation try-block, reached only
after moderation approved. The fetch is issued with the `Authorization`
header built from the environment at request time; on `!togetherResponse.ok`
the upstream status is relayed with `data.error || "Error generating image."`;
on success `data.data[0].url` is relayed (a missing or empty `data.data`
makes that access throw, landing in the catch with the 500
`Internal Server Error` response, like a transport failure). -/
def generationStep (apiKey : Option String) (genOut : RemoteOutcome GenResponse) :
    HandlerResult :=
  match genOut with
  | .transportError =>
    ⟨⟨500, .errorBody (.vstr internalErrorMsg)⟩, true, true, some (bearerHeader apiKey)⟩
  | .response g =>
    if fetchOk g.status then
      match g.body.data with
      | some (item :: _) =>
        ⟨⟨200, .urlBody item.url⟩, true, true, some (bearerHeader apiKey)⟩
      | _ =>
        ⟨⟨500, .errorBody (.vstr internalErrorMsg)⟩, true, true,
          some (bearerHeader apiKey)⟩
    else
      ⟨⟨g.status, .errorBody (genErrorMessage g.body)⟩, true, true,
        some (bearerHeader apiKey)⟩

/-- `src/index.js` lines 36-132: the `/generate-image` handler body.
`apiKey` is `process.env.TOGETHER_API_KEY` at the time of the request;
`modOut` and `genOut` are the outcomes of the two awaited remote calls.
Validation (lines 40-45), moderation try-block (48-95) with the verdict
branch (86-89) and catch (90-95), then the generation step. -/
def handleGenerateImage (apiKey : Option String) (body : ReqBody)
    (modOut : RemoteOutcome ModResponse) (genOut : RemoteOutcome GenResponse) :
    HandlerResult :=
  if !(validPrompt body.prompt) then
    ⟨⟨400, .errorBody (.vstr invalidPromptMsg)⟩, false, false, none⟩
  else
    match modOut with
    | .transportError =>
      ⟨⟨500, .errorBody (.vstr moderationFailMsg)⟩, true, false, none⟩
    | .response mr =>
      match parseModerationAnswer mr with
      | .error _ =>
        ⟨⟨500, .errorBody (.vstr moderationFailMsg)⟩, true, false, none⟩
      | .ok ans =>
        if ans = "no" then
          ⟨⟨200, .urlBody "/nonono.gif"⟩, true, false, none⟩
        else
          generationStep apiKey genOut

/-- The rate limiter's per-window state: the client addresses of the
requests already counted in the current 1-second window
(`express-rate-limit` with `windowMs: 1000`, counters keyed by `req.ip`). -/
abbrev RateState := List String

/-- `src/index.js` lines 29-33: `max: 1` — the incoming request is
admitted iff its incremented per-IP count stays within the limit,
i.e. no request from this address was counted in the window yet. -/
def rateAdmits (st : RateState) (ip : String) : Bool :=
  decide (st.count ip + 1 ≤ 1)

/-- One inbound `POST /generate-image` request: client address, body and
the outcomes its remote calls would have. -/
structure InboundRequest where
  ip : String
  body : ReqBody
  modOut : RemoteOutcome ModResponse
  genOut : RemoteOutcome GenResponse

/-- The full route `app.post("/generate-image", limiter, handler)`: the
`limiter` middleware runs first and either responds 429 or passes the
request to the handler; either way the request is counted. -/
def processRequest (apiKey : Option String) (st : RateState)
    (rq : InboundRequest) : RateState × HandlerResult :=
  let st' := rq.ip :: st
  if rateAdmits st rq.ip then
    (st', handleGenerateImage apiKey rq.body rq.modOut rq.genOut)
  else
    (st', ⟨⟨429, .textBody rateLimitMsg⟩, false, false, none⟩)

/-- A sequence of requests all falling in the same 1-second window,
processed in arrival order against the shared rate-limiter state. -/
def processRequests (apiKey : Option String) (st : RateState) :
    List InboundRequest → RateState × List HandlerResult
  | [] => (st, [])
  | rq :: rest =>
    let p := processRequest apiKey st rq
    let rest' := processRequests apiKey p.1 rest
    (rest'.1, p.2 :: rest'.2)

/-! ### Helper lemmas about the handler's branches -/

theorem handle_invalid (apiKey : Option String) (body : ReqBody)
    (modOut : RemoteOutcome ModResponse) (genOut : RemoteOutcome GenResponse)
    (h : validPrompt body.prompt = false) :
    handleGenerateImage apiKey body modOut genOut =
      ⟨⟨400, .errorBody (.vstr invalidPromptMsg)⟩, false, false, none⟩ := by
  simp [handleGenerateImage, h]

theorem handle_mod_transport (apiKey : Option String) (body : ReqBody)
    (genOut : RemoteOutcome GenResponse) (h : validPrompt body.prompt = true) :
    handleGenerateImage apiKey body .transportError genOut =
      ⟨⟨500, .errorBody (.vstr moderationFailMsg)⟩, true, false, none⟩ := by
  simp [handleGenerateImage, h]

theorem handle_mod_error (apiKey : Option String) (body : ReqBody) (mr : ModResponse)
    (genOut : RemoteOutcome GenResponse) (e : ModError)
    (h : validPrompt body.prompt = true) (hp : parseModerationAnswer mr = .error e) :
    handleGenerateImage apiKey body (.response mr) genOut =
      ⟨⟨500, .errorBody (.vstr moderationFailMsg)⟩, true, false, none⟩ := by
  simp [handleGenerateImage, h, hp]

theorem handle_verdict_no (apiKey : Option String) (body : ReqBody) (mr : ModResponse)
    (genOut : RemoteOutcome GenResponse)
    (h : validPrompt body.prompt = true) (hp : parseModerationAnswer mr = .ok "no") :
    handleGenerateImage apiKey body (.response mr) genOut =
      ⟨⟨200, .urlBody "/nonono.gif"⟩, true, false, none⟩ := by
  simp [handleGenerateImage, h, hp]

theorem handle_verdict_other (apiKey : Option String) (body : ReqBody) (mr : ModResponse)
    (genOut : RemoteOutcome GenResponse) (ans : String)
    (h : validPrompt body.prompt = true) (hp : parseModerationAnswer mr = .ok ans)
    (hans : ans ≠ "no") :
    handleGenerateImage apiKey body (.response mr) genOut = generationStep apiKey genOut := by
  simp [handleGenerateImage, h, hp, hans]

theorem generationStep_flags (apiKey : Option String) (genOut : RemoteOutcome GenResponse) :
    (generationStep apiKey genOut).generationCalled = true ∧
    (generationStep apiKey genOut).moderationCalled = true ∧
    (generationStep apiKey genOut).genAuthHeader = some (bearerHeader apiKey) := by
  cases genOut with
  | transportError => exact ⟨rfl, rfl, rfl⟩
  | response g =>
    rcases hdata : g.body.data with _ | ⟨_ | ⟨item, rest⟩⟩ <;>
      by_cases hok : fetchOk g.status = true <;>
        simp [generationStep, hok, hdata]

/-! ### Claim theorems -/

/-- C1: once the prompt is valid and a text answer is successfully extracted
from the moderation response, the handler returns the placeholder payload
`{url: "/nonono.gif"}` with HTTP 200 and never issues the generation fetch
if and only if the extracted (trimmed, lower-cased) answer is exactly `"no"`;
for any other extracted answer the generation step is invoked. -/
theorem C1_no_verdict_iff_placeholder (apiKey : Option String) (body : ReqBody)
    (mr : ModResponse) (genOut : RemoteOutcome GenResponse) (ans : String)
    (hvalid : validPrompt body.prompt = true)
    (hparse : parseModerationAnswer mr = .ok ans) :
    (((handleGenerateImage apiKey body (.response mr) genOut).response =
        ⟨200, .urlBody "/nonono.gif"⟩ ∧
      (handleGenerateImage apiKey body (.response mr) genOut).generationCalled = false) ↔
      ans = "no") ∧
    (ans ≠ "no" →
      (handleGenerateImage apiKey body (.response mr) genOut).generationCalled = true) := by
  by_cases hans : ans = "no"
  · subst hans
    rw [handle_verdict_no apiKey body mr genOut hvalid hparse]
    exact ⟨⟨fun _ => rfl, fun _ => ⟨rfl, rfl⟩⟩, fun hn => absurd rfl hn⟩
  · rw [handle_verdict_other apiKey body mr genOut ans hvalid hparse hans]
    refine ⟨⟨?_, fun h => absurd h hans⟩, fun _ => (generationStep_flags apiKey genOut).1⟩
    rintro ⟨-, hgen⟩
    have hcalled := (generationStep_flags apiKey genOut).1
    rw [hgen] at hcalled
    exact absurd hcalled (by decide)

/-- C1 witness: prompt `"p"`, moderation result `" NO "` (extracted answer
`"no"`), generation outcome irrelevant. -/
theorem C1_witness :
    (((handleGenerateImage none ⟨some (.vstr "p")⟩
          (.response ⟨some (.vstr " NO "), none⟩) .transportError).response =
        ⟨200, .urlBody "/nonono.gif"⟩ ∧
      (handleGenerateImage none ⟨some (.vstr "p")⟩
          (.response ⟨some (.vstr " NO "), none⟩) .transportError).generationCalled = false) ↔
      "no" = "no") ∧
    ("no" ≠ "no" →
      (handleGenerateImage none ⟨some (.vstr "p")⟩
          (.response ⟨some (.vstr " NO "), none⟩) .transportError).generationCalled = true) :=
  C1_no_verdict_iff_placeholder none ⟨some (.vstr "p")⟩
    ⟨some (.vstr " NO "), none⟩ .transportError "no" (by decide) rfl

/-- C2 counterexample: two requests from the same address in the same
1-second window; the first (valid prompt, moderation answered `"no"`) is
admitted and answered 200, the second has no prompt at all and yet receives
429, not the 400 the claim demands — the rate gate runs before validation. -/
theorem C2_counterexample :
    (processRequests none []
        [⟨"1.2.3.4", ⟨some (.vstr "cat")⟩, .response ⟨some (.vstr "no"), none⟩,
            .transportError⟩,
          ⟨"1.2.3.4", ⟨none⟩, .transportError, .transportError⟩]).2.map
        (fun r => r.response.status) = [200, 429] ∧ (429 : Nat) ≠ 400 := by decide

/-- C2 (amended): the rate gate precedes prompt validation: a request from
an address already counted in the current window receives the 429 rejection
regardless of its body (moderation is never entered), and the 400 validation
rejection is produced only for rate-admitted requests with an invalid prompt. -/
theorem C2_rate_gate_before_validation (apiKey : Option String) (st : RateState)
    (rq : InboundRequest) :
    (1 ≤ st.count rq.ip →
      (processRequest apiKey st rq).2 =
        ⟨⟨429, .textBody rateLimitMsg⟩, false, false, none⟩) ∧
    (st.count rq.ip = 0 → validPrompt rq.body.prompt = false →
      (processRequest apiKey st rq).2 =
        ⟨⟨400, .errorBody (.vstr invalidPromptMsg)⟩, false, false, none⟩) := by
  constructor
  · intro h
    have hadm : rateAdmits st rq.ip = false := by
      simp only [rateAdmits, decide_eq_false_iff_not]
      omega
    simp [processRequest, hadm]
  · intro h0 hbad
    have hadm : rateAdmits st rq.ip = true := by
      simp [rateAdmits, h0]
    simp [processRequest, hadm, handle_invalid apiKey rq.body rq.modOut rq.genOut hbad]

/-- C2 witness: a second same-window request from `"9.9.9.9"` with a
missing prompt is answered 429; the same request against a fresh window
is answered 400. -/
theorem C2_witness :
    (processRequest none ["9.9.9.9"]
        ⟨"9.9.9.9", ⟨none⟩, .transportError, .transportError⟩).2 =
      ⟨⟨429, .textBody rateLimitMsg⟩, false, false, none⟩ ∧
    (processRequest none []
        ⟨"9.9.9.9", ⟨none⟩, .transportError, .transportError⟩).2 =
      ⟨⟨400, .errorBody (.vstr invalidPromptMsg)⟩, false, false, none⟩ :=
  ⟨(C2_rate_gate_before_validation none ["9.9.9.9"]
      ⟨"9.9.9.9", ⟨none⟩, .transportError, .transportError⟩).1 (by decide),
   (C2_rate_gate_before_validation none []
      ⟨"9.9.9.9", ⟨none⟩, .transportError, .transportError⟩).2 (by decide) (by decide)⟩

/-- C3: a body whose `prompt` field is missing, not a string, or the empty
string is answered exactly 400 with the fixed message, and neither the
moderation step nor the generation step is entered. -/
theorem C3_invalid_prompt_rejected (apiKey : Option String) (body : ReqBody)
    (modOut : RemoteOutcome ModResponse) (genOut : RemoteOutcome GenResponse)
    (hbad : body.prompt = none ∨
      (∃ v, body.prompt = some v ∧ jsIsString v = false) ∨
      body.prompt = some (.vstr "")) :
    handleGenerateImage apiKey body modOut genOut =
      ⟨⟨400, .errorBody (.vstr invalidPromptMsg)⟩, false, false, none⟩ := by
  apply handle_invalid
  rcases hbad with h | ⟨v, hv, hnstr⟩ | h
  · rw [h]; rfl
  · rw [hv]; simp [validPrompt, hnstr]
  · rw [h]; rfl

/-- C3 witness: the missing-prompt body. -/
theorem C3_witness :
    handleGenerateImage none ⟨none⟩ .transportError .transportError =
      ⟨⟨400, .errorBody (.vstr invalidPromptMsg)⟩, false, false, none⟩ :=
  C3_invalid_prompt_rejected none ⟨none⟩ .transportError .transportError (Or.inl rfl)

/-- C4: when the moderation call raises a transport error, the response is
HTTP 500 with the fixed moderation-failure message and the generation fetch
is never issued. -/
theorem C4_moderation_transport_error (apiKey : Option String) (body : ReqBody)
    (genOut : RemoteOutcome GenResponse) (hvalid : validPrompt body.prompt = true) :
    handleGenerateImage apiKey body .transportError genOut =
      ⟨⟨500, .errorBody (.vstr moderationFailMsg)⟩, true, false, none⟩ :=
  handle_mod_transport apiKey body genOut hvalid

/-- C4 witness. -/
theorem C4_witness :
    handleGenerateImage none ⟨some (.vstr "p")⟩ .transportError .transportError =
      ⟨⟨500, .errorBody (.vstr moderationFailMsg)⟩, true, false, none⟩ :=
  C4_moderation_transport_error none ⟨some (.vstr "p")⟩ .transportError (by decide)

/-- C5: a moderation response with neither a `result` field nor a `choices`
array is answered by the 500 moderation-failure response and the generation
fetch is never issued; both the plain result-string shape and the structured
choices-list shape are accepted as successful parses. -/
theorem C5_moderation_format (apiKey : Option String) (body : ReqBody)
    (genOut : RemoteOutcome GenResponse) (hvalid : validPrompt body.prompt = true) :
    (∀ mr : ModResponse, mr.result = none → mr.choices = none →
      handleGenerateImage apiKey body (.response mr) genOut =
        ⟨⟨500, .errorBody (.vstr moderationFailMsg)⟩, true, false, none⟩) ∧
    (∀ s : String, s ≠ "" → ∀ cs : Option (List ModChoice),
      parseModerationAnswer ⟨some (.vstr s), cs⟩ = .ok (jsToLower (jsTrim s))) ∧
    (∀ s : String, ∀ rest : List ModChoice,
      parseModerationAnswer ⟨none, some (⟨some ⟨some (.vstr s)⟩⟩ :: rest)⟩ =
        .ok (jsToLower (jsTrim s))) := by
  refine ⟨?_, ?_, ?_⟩
  · intro mr h1 h2
    refine handle_mod_error apiKey body mr genOut .formatError hvalid ?_
    simp [parseModerationAnswer, parseChoicesAnswer, h1, h2]
  · intro s hs cs
    simp [parseModerationAnswer, jsTruthy, jsTrimLower, hs]
  · intro s rest
    rfl

/-- C5 witness: the empty-shape response is answered 500 without a
generation fetch; `" YES "` as result string and `"yes"` as first choice
content both parse to `"yes"`. -/
theorem C5_witness :
    handleGenerateImage none ⟨some (.vstr "p")⟩ (.response ⟨none, none⟩) .transportError =
      ⟨⟨500, .errorBody (.vstr moderationFailMsg)⟩, true, false, none⟩ ∧
    parseModerationAnswer ⟨some (.vstr " YES "), none⟩ = .ok "yes" ∧
    parseModerationAnswer ⟨none, some [⟨some ⟨some (.vstr "yes")⟩⟩]⟩ = .ok "yes" :=
  ⟨(C5_moderation_format none ⟨some (.vstr "p")⟩ .transportError (by decide)).1
      ⟨none, none⟩ rfl rfl,
   (C5_moderation_format none ⟨some (.vstr "p")⟩ .transportError (by decide)).2.1
      " YES " (by decide) none,
   (C5_moderation_format none ⟨some (.vstr "p")⟩ .transportError (by decide)).2.2
      "yes" []⟩

/-- C6: a generation call answered with a success status and a result list
yields HTTP 200 whose body is exactly the first item's URL under the single
field `url`. -/
theorem C6_generation_success_relays_url (apiKey : Option String) (body : ReqBody)
    (mr : ModResponse) (ans : String) (status : Nat) (err : Option JsVal)
    (item : GenItem) (rest : List GenItem)
    (hvalid : validPrompt body.prompt = true)
    (hparse : parseModerationAnswer mr = .ok ans) (hans : ans ≠ "no")
    (hok : fetchOk status = true) :
    (handleGenerateImage apiKey body (.response mr)
        (.response ⟨status, ⟨err, some (item :: rest)⟩⟩)).response =
      ⟨200, .urlBody item.url⟩ := by
  rw [handle_verdict_other apiKey body mr _ ans hvalid hparse hans]
  simp [generationStep, hok]

/-- C6 witness: the round-trip scenario — prompt `"a red bicycle"`,
moderation answers `"yes"`, generation answers
`{data: [{url: "https://x/img.png"}]}` with status 200; the final response
is exactly `{url: "https://x/img.png"}` with status 200. -/
theorem C6_witness :
    (handleGenerateImage none ⟨some (.vstr "a red bicycle")⟩
        (.response ⟨some (.vstr "yes"), none⟩)
        (.response ⟨200, ⟨none, some [⟨"https://x/img.png"⟩]⟩⟩)).response =
      ⟨200, .urlBody "https://x/img.png"⟩ :=
  C6_generation_success_relays_url none ⟨some (.vstr "a red bicycle")⟩
    ⟨some (.vstr "yes"), none⟩ "yes" 200 none ⟨"https://x/img.png"⟩ []
    (by decide) rfl (by decide) (by decide)

/-- C7 counterexample: the upstream answers status 402 with a body that does
carry an `error` field, holding the empty string; the relayed body is the
generic `"Error generating image."`, not the embedded (empty) message
verbatim — `data.error || ...` discards every falsy `error` value. -/
theorem C7_counterexample :
    (handleGenerateImage none ⟨some (.vstr "p")⟩
        (.response ⟨some (.vstr "yes"), none⟩)
        (.response ⟨402, ⟨some (.vstr ""), none⟩⟩)).response =
      ⟨402, .errorBody (.vstr "Error generating image.")⟩ ∧
    "Error generating image." ≠ "" := by decide

/-- C7 (amended): on a non-success upstream status the handler relays the
upstream's status code; the embedded `error` value is relayed verbatim when
it is truthy (e.g. a non-empty string), and the generic
`"Error generating image."` is used when the `error` field is absent or
falsy. -/
theorem C7_upstream_error_relay (apiKey : Option String) (body : ReqBody)
    (mr : ModResponse) (ans : String) (status : Nat) (gbody : GenBody)
    (hvalid : validPrompt body.prompt = true)
    (hparse : parseModerationAnswer mr = .ok ans) (hans : ans ≠ "no")
    (hnok : fetchOk status = false) :
    (handleGenerateImage apiKey body (.response mr)
        (.response ⟨status, gbody⟩)).response.status = status ∧
    (∀ v, gbody.error = some v → jsTruthy v = true →
      (handleGenerateImage apiKey body (.response mr)
          (.response ⟨status, gbody⟩)).response.body = .errorBody v) ∧
    ((gbody.error = none ∨ ∃ v, gbody.error = some v ∧ jsTruthy v = false) →
      (handleGenerateImage apiKey body (.response mr)
          (.response ⟨status, gbody⟩)).response.body =
        .errorBody (.vstr "Error generating image.")) := by
  rw [handle_verdict_other apiKey body mr _ ans hvalid hparse hans]
  refine ⟨by simp [generationStep, hnok], ?_, ?_⟩
  · intro v hv htr
    simp [generationStep, hnok, genErrorMessage, hv, htr]
  · rintro (h | ⟨v, hv, hfa⟩)
    · simp [generationStep, hnok, genErrorMessage, h]
    · simp [generationStep, hnok, genErrorMessage, hv, hfa]

/-- C7 witness: upstream 503 with a non-empty error string is relayed with
its status and message; upstream 503 with no error field yields the generic
message. -/
theorem C7_witness :
    (handleGenerateImage none ⟨some (.vstr "p")⟩
        (.response ⟨some (.vstr "yes"), none⟩)
        (.response ⟨503, ⟨some (.vstr "upstream refused"), none⟩⟩)).response.status = 503 ∧
    (handleGenerateImage none ⟨some (.vstr "p")⟩
        (.response ⟨some (.vstr "yes"), none⟩)
        (.response ⟨503, ⟨some (.vstr "upstream refused"), none⟩⟩)).response.body =
      .errorBody (.vstr "upstream refused") ∧
    (handleGenerateImage none ⟨some (.vstr "p")⟩
        (.response ⟨some (.vstr "yes"), none⟩)
        (.response ⟨503, ⟨none, none⟩⟩)).response.body =
      .errorBody (.vstr "Error generating image.") :=
  ⟨(C7_upstream_error_relay none ⟨some (.vstr "p")⟩ ⟨some (.vstr "yes"), none⟩
      "yes" 503 ⟨some (.vstr "upstream refused"), none⟩
      (by decide) rfl (by decide) (by decide)).1,
   (C7_upstream_error_relay none ⟨some (.vstr "p")⟩ ⟨some (.vstr "yes"), none⟩
      "yes" 503 ⟨some (.vstr "upstream refused"), none⟩
      (by decide) rfl (by decide) (by decide)).2.1
      (.vstr "upstream refused") rfl (by decide),
   (C7_upstream_error_relay none ⟨some (.vstr "p")⟩ ⟨some (.vstr "yes"), none⟩
      "yes" 503 ⟨none, none⟩
      (by decide) rfl (by decide) (by decide)).2.2 (Or.inl rfl)⟩

/-- C8: evaluation at the failing input. With `TOGETHER_API_KEY` unset the
handler performs no configuration check at all: for a valid prompt approved
by moderation it still issues the generation fetch, with the literal header
`Bearer undefined` (the template interpolation of an unset variable), and
the remote rejection is relayed as-is (here a 401 carrying the provider's
message) instead of a clear internal configuration error — the code also
reads the variable per request, at line 104, not once at process start. -/
theorem C8_missing_key_not_detected :
    handleGenerateImage none ⟨some (.vstr "a red bicycle")⟩
        (.response ⟨some (.vstr "yes"), none⟩)
        (.response ⟨401, ⟨some (.vstr "Invalid API key"), none⟩⟩) =
      ⟨⟨401, .errorBody (.vstr "Invalid API key")⟩, true, true,
        some "Bearer undefined"⟩ := by decide

/-- C9: a non-empty string `result` field wins — the answer is its trimmed,
lower-cased value and any `choices` array present in the same response is
ignored; when `result` is absent or the empty string, parsing falls through
to the `choices` array. -/
theorem C9_result_field_priority (r : ModResponse) :
    (∀ s : String, r.result = some (.vstr s) → s ≠ "" →
      parseModerationAnswer r = .ok (jsToLower (jsTrim s))) ∧
    ((r.result = none ∨ r.result = some (.vstr "")) →
      parseModerationAnswer r = parseChoicesAnswer r.choices) := by
  constructor
  · intro s hs hne
    simp [parseModerationAnswer, hs, jsTruthy, jsTrimLower, hne]
  · rintro (h | h) <;> simp [parseModerationAnswer, h, jsTruthy]

/-- C9 witness: with result `" Yes"` the choices entry `"no"` is ignored
and the answer is `"yes"`; with result `""` parsing is exactly the choices
parse. -/
theorem C9_witness :
    parseModerationAnswer ⟨some (.vstr " Yes"), some [⟨some ⟨some (.vstr "no")⟩⟩]⟩ =
      .ok "yes" ∧
    parseModerationAnswer ⟨some (.vstr ""), some [⟨some ⟨some (.vstr "no")⟩⟩]⟩ =
      parseChoicesAnswer (some [⟨some ⟨some (.vstr "no")⟩⟩]) :=
  ⟨(C9_result_field_priority ⟨some (.vstr " Yes"), some [⟨some ⟨some (.vstr "no")⟩⟩]⟩).1
      " Yes" rfl (by decide),
   (C9_result_field_priority ⟨some (.vstr ""), some [⟨some ⟨some (.vstr "no")⟩⟩]⟩).2
      (Or.inr rfl)⟩

/-- C10: a moderation response with no `result` field whose `choices` value
is an array that is empty, or whose first element has no `message`, or whose
`message` has no string `content`, is answered by the 500 moderation-failure
response and the generation fetch is never issued — this shape is not
fail-open. -/
theorem C10_broken_choices_fail_closed (apiKey : Option String) (body : ReqBody)
    (genOut : RemoteOutcome GenResponse) (mr : ModResponse) (cs : List ModChoice)
    (hvalid : validPrompt body.prompt = true)
    (hres : mr.result = none) (hch : mr.choices = some cs)
    (hbad : cs = [] ∨ ∃ c rest, cs = c :: rest ∧
      (c.message = none ∨ ∃ m, c.message = some m ∧
        (m.content = none ∨ ∃ v, m.content = some v ∧ jsIsString v = false))) :
    handleGenerateImage apiKey body (.response mr) genOut =
      ⟨⟨500, .errorBody (.vstr moderationFailMsg)⟩, true, false, none⟩ := by
  refine handle_mod_error apiKey body mr genOut .typeError hvalid ?_
  have hp : parseChoicesAnswer (some cs) = .error .typeError := by
    rcases hbad with rfl | ⟨c, rest, rfl, hc⟩
    · rfl
    · rcases hc with hm | ⟨m, hm, hcont⟩
      · simp [parseChoicesAnswer, hm]
      · rcases hcont with hc0 | ⟨v, hv, hnstr⟩
        · simp [parseChoicesAnswer, hm, hc0]
        · have hnone : jsTrimLower v = none := by
            cases v <;> simp_all [jsTrimLower, jsIsString]
          simp [parseChoicesAnswer, hm, hv, hnone]
  simp [parseModerationAnswer, hres, hch, hp]

/-- C10 witness: an empty `choices` array. -/
theorem C10_witness :
    handleGenerateImage none ⟨some (.vstr "p")⟩ (.response ⟨none, some []⟩)
        .transportError =
      ⟨⟨500, .errorBody (.vstr moderationFailMsg)⟩, true, false, none⟩ :=
  C10_broken_choices_fail_closed none ⟨some (.vstr "p")⟩ .transportError
    ⟨none, some []⟩ [] (by decide) rfl rfl (Or.inl rfl)

end ApiRouter
